import Mathlib

/-!
Shallow embedding of `src/CoordinatesFromIPs.js`: an IP-geolocation utility
with three functions, `getCoordinatesFromIP` (regex validation plus a
three-provider fallback chain), `getCoordinatesFromIPs` (batch map) and
`createFlowsFromIPs` (pairwise flow construction).

The network is modelled as an oracle: a `Providers` record gives, for one
resolution, the outcome of each of the three provider fetches (either a
caught failure — network error or JSON-parse error — or parsed data whose
fields are JavaScript values).  JSON field values are modelled by `JSValue`
with JavaScript truthiness; JSON numbers are rationals (JSON cannot denote
NaN or infinities).  `getCoordinatesFromIP` additionally returns the list
of provider requests it attempted, so that claims about which providers
were contacted are statable.
-/

namespace CoordinatesFromIPs

/-- A JavaScript value as it can appear in a parsed JSON response field
(a missing field reads as `undefined`). -/
inductive JSValue where
  | undefined
  | null
  | boolean (b : Bool)
  | num (q : ℚ)
  | str (s : String)
deriving DecidableEq, Repr

/-- JavaScript truthiness of a `JSValue`: `undefined`, `null`, `false`,
`0` and `""` are falsy, everything else is truthy. -/
def JSValue.truthy : JSValue → Bool
  | .undefined => false
  | .null => false
  | .boolean b => b
  | .num q => decide (q ≠ 0)
  | .str s => decide (s ≠ "")

/-- Outcome of one `await fetch(...)` + `await response.json()` block:
either an exception was thrown somewhere inside the `try` (network error
or parse error), or parsed data was obtained. -/
inductive FetchResult (α : Type) where
  | fetchError
  | ok (data : α)
deriving DecidableEq, Repr

/-- Fields read from provider 1 (`ip-api.com`): `status`, `lon`, `lat`. -/
structure P1Data where
  status : JSValue
  lon : JSValue
  lat : JSValue
deriving DecidableEq, Repr

/-- Fields read from providers 2 and 3 (`ipapi.co`, `ip-api.io`):
`longitude`, `latitude`. -/
structure P23Data where
  longitude : JSValue
  latitude : JSValue
deriving DecidableEq, Repr

/-- Network oracle for a single resolution: the outcome each provider
would deliver if contacted. -/
structure Providers where
  p1 : FetchResult P1Data
  p2 : FetchResult P23Data
  p3 : FetchResult P23Data
deriving DecidableEq, Repr

/-- Label for a provider request, used in the request trace. -/
inductive Req where
  | provider1
  | provider2
  | provider3
deriving DecidableEq, Repr

/-- The provider-1 block (lines 20–31): on caught failure, no result;
otherwise `data1.status === 'success' && data1.lon && data1.lat`
(strict equality with the string, then JS truthiness of both fields)
yields `[data1.lon, data1.lat]`, else no result. -/
def queryProvider1 : FetchResult P1Data → Option (JSValue × JSValue)
  | .fetchError => none
  | .ok d =>
    if (d.status == JSValue.str "success") && d.lon.truthy && d.lat.truthy then
      some (d.lon, d.lat)
    else
      none

/-- The provider-2 and provider-3 blocks (lines 33–43 and 45–55), which
have identical logic: on caught failure, no result; otherwise
`data.longitude && data.latitude` (JS truthiness of both fields) yields
`[data.longitude, data.latitude]`, else no result. -/
def queryProviderCoords : FetchResult P23Data → Option (JSValue × JSValue)
  | .fetchError => none
  | .ok d =>
    if d.longitude.truthy && d.latitude.truthy then
      some (d.longitude, d.latitude)
    else
      none

/-- Split a character list on `'.'` (the semantics of splitting on a
single-character separator, with empty pieces kept). -/
def splitDots : List Char → List (List Char)
  | [] => [[]]
  | c :: cs =>
    if c = '.' then
      [] :: splitDots cs
    else
      match splitDots cs with
      | [] => [[c]]
      | g :: gs => (c :: g) :: gs

/-- One group of the dotted quad: 1 to 3 characters, all decimal digits
(the `\d{1,3}` piece of the regex). -/
def isOctetGroup (g : List Char) : Bool :=
  decide (1 ≤ g.length) && decide (g.length ≤ 3) && g.all Char.isDigit

/-- `ipRegex.test(ipAddress)` for `ipRegex = /^(\d{1,3}\.){3}\d{1,3}$/`
(line 13): the whole string decomposes into exactly four dot-separated
groups of 1–3 digits.  Because the separator is a single character that
no digit group may contain, the regex matches exactly the strings whose
dot-split has this shape. -/
def ipRegexTest (s : String) : Bool :=
  let parts := splitDots s.data
  (parts.length == 4) && parts.all isOctetGroup

/-- `getCoordinatesFromIP` (lines 11–59): validate the format, then try
the three providers in order, returning the first usable coordinate pair,
or `null` (here `none`) if validation fails or all providers fail.  The
second component is the trace of provider requests attempted (a request
is attempted whenever its `fetch` is reached, even if it then fails). -/
def getCoordinatesFromIP (ipAddress : String) (net : Providers) :
    Option (JSValue × JSValue) × List Req :=
  if ipRegexTest ipAddress = false then
    (none, [])
  else
    match queryProvider1 net.p1 with
    | some coords => (some coords, [Req.provider1])
    | none =>
      match queryProviderCoords net.p2 with
      | some coords => (some coords, [Req.provider1, Req.provider2])
      | none =>
        match queryProviderCoords net.p3 with
        | some coords =>
          (some coords, [Req.provider1, Req.provider2, Req.provider3])
        | none => (none, [Req.provider1, Req.provider2, Req.provider3])

/-- `getCoordinatesFromIPs` (lines 66–74): map each IP to an
`{ip, coords}` entry.  `Promise.all` preserves the order of the mapped
array, so the embedding is a plain `List.map`; the per-IP network oracle
is a function from the IP string. -/
def getCoordinatesFromIPs (ipAddresses : List String)
    (net : String → Providers) : List (String × Option (JSValue × JSValue)) :=
  ipAddresses.map fun ip => (ip, (getCoordinatesFromIP ip (net ip)).fst)

/-- An input pair `{srcIP, dstIP}` for `createFlowsFromIPs`. -/
structure IPPair where
  srcIP : String
  dstIP : String
deriving DecidableEq, Repr

/-- An output flow `{src, dst}` of `createFlowsFromIPs`. -/
structure Flow where
  src : JSValue × JSValue
  dst : JSValue × JSValue
deriving DecidableEq, Repr

/-- `createFlowsFromIPs` (lines 81–91): for each pair in order, resolve
source then destination; push `{src, dst}` only when both are truthy
(a two-element array is always truthy in JS, so the `if` tests exactly
that neither result is `null`). -/
def createFlowsFromIPs (ipPairs : List IPPair) (net : String → Providers) :
    List Flow :=
  match ipPairs with
  | [] => []
  | pair :: rest =>
    let srcCoords := (getCoordinatesFromIP pair.srcIP (net pair.srcIP)).fst
    let dstCoords := (getCoordinatesFromIP pair.dstIP (net pair.dstIP)).fst
    match srcCoords, dstCoords with
    | some s, some d => { src := s, dst := d } :: createFlowsFromIPs rest net
    | _, _ => createFlowsFromIPs rest net

/-- `createFlowsFromIPs` instrumented with the trace of resolver
invocations: the second component lists, in order, every IP string passed
to `getCoordinatesFromIP`.  In the source both `await` lines run
unconditionally for every pair, so each pair contributes its source IP
then its destination IP. -/
def createFlowsFromIPsTrace (ipPairs : List IPPair)
    (net : String → Providers) : List Flow × List String :=
  match ipPairs with
  | [] => ([], [])
  | pair :: rest =>
    let srcCoords := (getCoordinatesFromIP pair.srcIP (net pair.srcIP)).fst
    let dstCoords := (getCoordinatesFromIP pair.dstIP (net pair.dstIP)).fst
    let tail := createFlowsFromIPsTrace rest net
    (match srcCoords, dstCoords with
     | some s, some d => { src := s, dst := d } :: tail.fst
     | _, _ => tail.fst,
     pair.srcIP :: pair.dstIP :: tail.snd)

/-- A sample oracle where provider 1 answers successfully. -/
def sampleP1Ok : Providers where
  p1 := .ok { status := .str "success", lon := .num 121, lat := .num 25 }
  p2 := .fetchError
  p3 := .fetchError

/-- A sample oracle where every provider fails or is unusable. -/
def sampleAllFail : Providers where
  p1 := .ok { status := .str "fail", lon := .undefined, lat := .undefined }
  p2 := .fetchError
  p3 := .ok { longitude := .num 0, latitude := .num 10 }

/-- A sample oracle where provider 1 errors and provider 2 answers. -/
def sampleP2Ok : Providers where
  p1 := .fetchError
  p2 := .ok { longitude := .num 139, latitude := .num 35 }
  p3 := .fetchError

/-- C1: for every valid dotted-quad IP string, if provider 1's response
has status `'success'` and both `lon` and `lat` present and non-zero,
`getCoordinatesFromIP` returns exactly the pair `[lon, lat]` from that
response, and the request trace is `[provider1]`, i.e. no request is made
to provider 2 or provider 3. -/
theorem spec_c1 (ip : String) (net : Providers) (d : P1Data) (x y : ℚ)
    (hip : ipRegexTest ip = true)
    (hp1 : net.p1 = FetchResult.ok d)
    (hst : d.status = JSValue.str "success")
    (hlon : d.lon = JSValue.num x) (hx : x ≠ 0)
    (hlat : d.lat = JSValue.num y) (hy : y ≠ 0) :
    getCoordinatesFromIP ip net =
      (some (JSValue.num x, JSValue.num y), [Req.provider1]) := by
  unfold getCoordinatesFromIP
  simp [hip, queryProvider1, hp1, hst, hlon, hlat, JSValue.truthy, hx, hy]

/-- Witness for C1 at a concrete IP and oracle. -/
theorem spec_c1_witness :
    getCoordinatesFromIP "8.8.8.8" sampleP1Ok =
      (some (JSValue.num 121, JSValue.num 25), [Req.provider1]) :=
  spec_c1 "8.8.8.8" sampleP1Ok
    { status := .str "success", lon := .num 121, lat := .num 25 } 121 25
    (by decide) rfl rfl rfl (by norm_num) rfl (by norm_num)

/-- C2: every input string that does not match
`^(\d{1,3}\.){3}\d{1,3}$` makes `getCoordinatesFromIP` return `none`
immediately with an empty request trace: no provider is contacted. -/
theorem spec_c2 (ip : String) (net : Providers)
    (h : ipRegexTest ip = false) :
    getCoordinatesFromIP ip net = (none, []) := by
  unfold getCoordinatesFromIP
  simp [h]

/-- Witness for C2 at a concrete malformed input. -/
theorem spec_c2_witness :
    getCoordinatesFromIP "not-an-ip" sampleP1Ok = (none, []) :=
  spec_c2 "not-an-ip" sampleP1Ok (by decide)

/-- C3: `getCoordinatesFromIPs` returns a list of the same length as the
input, and its `i`-th entry pairs the `i`-th input IP with the result of
resolving that IP; no entry is ever omitted. -/
theorem spec_c3 (ips : List String) (net : String → Providers) :
    (getCoordinatesFromIPs ips net).length = ips.length ∧
    ∀ (i : ℕ) (ip : String), ips[i]? = some ip →
      (getCoordinatesFromIPs ips net)[i]? =
        some (ip, (getCoordinatesFromIP ip (net ip)).fst) := by
  constructor
  · simp [getCoordinatesFromIPs]
  · intro i ip h
    simp [getCoordinatesFromIPs, List.getElem?_map, h]

/-- Witness for C3 at a concrete list containing a failing entry. -/
theorem spec_c3_witness :
    (getCoordinatesFromIPs ["8.8.8.8", "bad"]
        (fun _ => sampleP1Ok))[1]? =
      some ("bad", (getCoordinatesFromIP "bad" sampleP1Ok).fst) :=
  (spec_c3 ["8.8.8.8", "bad"] (fun _ => sampleP1Ok)).2 1 "bad" rfl

/-- C4: `createFlowsFromIPs` is the order-preserving `filterMap` that
emits a flow exactly for the pairs whose two endpoint resolutions both
returned coordinates — pairs with any failed resolution leave no entry —
and the output length is at most the input length. -/
theorem spec_c4 (ps : List IPPair) (net : String → Providers) :
    createFlowsFromIPs ps net =
      ps.filterMap (fun pair =>
        match (getCoordinatesFromIP pair.srcIP (net pair.srcIP)).fst,
              (getCoordinatesFromIP pair.dstIP (net pair.dstIP)).fst with
        | some s, some d => some { src := s, dst := d }
        | _, _ => none) ∧
    (createFlowsFromIPs ps net).length ≤ ps.length := by
  have key : ∀ qs : List IPPair,
      createFlowsFromIPs qs net =
        qs.filterMap (fun pair =>
          match (getCoordinatesFromIP pair.srcIP (net pair.srcIP)).fst,
                (getCoordinatesFromIP pair.dstIP (net pair.dstIP)).fst with
          | some s, some d => some { src := s, dst := d }
          | _, _ => none) := by
    intro qs
    induction qs with
    | nil => rfl
    | cons pair rest ih =>
      rw [createFlowsFromIPs, List.filterMap_cons]
      rcases hs : (getCoordinatesFromIP pair.srcIP (net pair.srcIP)).fst with
        _ | s <;>
        rcases hd : (getCoordinatesFromIP pair.dstIP (net pair.dstIP)).fst
          with _ | d <;>
        simp [hs, hd, ih]
  refine ⟨key ps, ?_⟩
  rw [key ps]
  exact List.length_filterMap_le _ _

/-- C5: for every valid IP, a provider response whose longitude or
latitude is exactly `0` is treated as a failure: replacing it by an
outright fetch failure changes neither the result nor the request trace,
so resolution falls through to the next provider (or to `none` after the
last one). -/
theorem spec_c5 (ip : String) (net : Providers)
    (d1 : P1Data) (d2 d3 : P23Data)
    (h1 : d1.lon = JSValue.num 0 ∨ d1.lat = JSValue.num 0)
    (h2 : d2.longitude = JSValue.num 0 ∨ d2.latitude = JSValue.num 0)
    (h3 : d3.longitude = JSValue.num 0 ∨ d3.latitude = JSValue.num 0) :
    getCoordinatesFromIP ip { net with p1 := FetchResult.ok d1 } =
      getCoordinatesFromIP ip { net with p1 := FetchResult.fetchError } ∧
    getCoordinatesFromIP ip { net with p2 := FetchResult.ok d2 } =
      getCoordinatesFromIP ip { net with p2 := FetchResult.fetchError } ∧
    getCoordinatesFromIP ip { net with p3 := FetchResult.ok d3 } =
      getCoordinatesFromIP ip { net with p3 := FetchResult.fetchError } := by
  have q1 : queryProvider1 (FetchResult.ok d1) = none := by
    rcases h1 with h | h <;>
      simp [queryProvider1, h, JSValue.truthy]
  have q2 : queryProviderCoords (FetchResult.ok d2) = none := by
    rcases h2 with h | h <;>
      simp [queryProviderCoords, h, JSValue.truthy]
  have q3 : queryProviderCoords (FetchResult.ok d3) = none := by
    rcases h3 with h | h <;>
      simp [queryProviderCoords, h, JSValue.truthy]
  have e1 : queryProvider1 FetchResult.fetchError = none := rfl
  have e2 : queryProviderCoords FetchResult.fetchError = none := rfl
  refine ⟨?_, ?_, ?_⟩ <;>
    simp only [getCoordinatesFromIP, q1, q2, q3, e1, e2]

/-- Witness for C5 at concrete zero-coordinate responses. -/
theorem spec_c5_witness :
    getCoordinatesFromIP "8.8.8.8"
        { sampleP2Ok with
          p1 := FetchResult.ok
            { status := .str "success", lon := .num 0, lat := .num 25 } } =
      getCoordinatesFromIP "8.8.8.8"
        { sampleP2Ok with p1 := FetchResult.fetchError } :=
  (spec_c5 "8.8.8.8" sampleP2Ok
    { status := .str "success", lon := .num 0, lat := .num 25 }
    { longitude := .num 0, latitude := .num 35 }
    { longitude := .num 7, latitude := .num 0 }
    (Or.inl rfl) (Or.inl rfl) (Or.inr rfl)).1

/-- C6: for every valid IP on which provider 1 is reached and all three
providers fail or return unusable data, `getCoordinatesFromIP` returns
`none` and the request trace shows exactly three provider requests. -/
theorem spec_c6 (ip : String) (net : Providers)
    (hip : ipRegexTest ip = true)
    (h1 : queryProvider1 net.p1 = none)
    (h2 : queryProviderCoords net.p2 = none)
    (h3 : queryProviderCoords net.p3 = none) :
    getCoordinatesFromIP ip net =
      (none, [Req.provider1, Req.provider2, Req.provider3]) := by
  unfold getCoordinatesFromIP
  simp [hip, h1, h2, h3]

/-- Witness for C6 at a concrete all-failing oracle. -/
theorem spec_c6_witness :
    getCoordinatesFromIP "8.8.8.8" sampleAllFail =
      (none, [Req.provider1, Req.provider2, Req.provider3]) :=
  spec_c6 "8.8.8.8" sampleAllFail (by decide) (by decide) (by decide)
    (by decide)

/-- C7: for every valid IP, if provider 1 fails (caught network or parse
error, or unusable data) while provider 2's response has longitude and
latitude present and non-falsy, `getCoordinatesFromIP` returns provider
2's pair — provider 1's failure never aborts the resolution. -/
theorem spec_c7 (ip : String) (net : Providers) (d2 : P23Data)
    (hip : ipRegexTest ip = true)
    (h1 : queryProvider1 net.p1 = none)
    (hp2 : net.p2 = FetchResult.ok d2)
    (hlon : d2.longitude.truthy = true)
    (hlat : d2.latitude.truthy = true) :
    (getCoordinatesFromIP ip net).fst =
      some (d2.longitude, d2.latitude) := by
  unfold getCoordinatesFromIP
  simp [hip, h1, queryProviderCoords, hp2, hlon, hlat]

/-- Witness for C7 at a concrete oracle with provider 1 down. -/
theorem spec_c7_witness :
    (getCoordinatesFromIP "8.8.8.8" sampleP2Ok).fst =
      some (JSValue.num 139, JSValue.num 35) :=
  spec_c7 "8.8.8.8" sampleP2Ok
    { longitude := .num 139, latitude := .num 35 }
    (by decide) rfl rfl (by decide) (by decide)

/-- C8: no public function propagates an error to the caller — in the
embedding every failure is a caught value — and the observable outcomes
collapse: a malformed IP and a valid IP with all providers failing yield
the identical absence result `none`; batch failures surface only as
absence entries (one entry per input, none omitted); flow failures
surface only as omitted flows (never more flows than pairs). -/
theorem spec_c8 (bad ip : String) (netb net : Providers)
    (ips : List String) (ps : List IPPair) (netf : String → Providers)
    (hbad : ipRegexTest bad = false)
    (hip : ipRegexTest ip = true)
    (h1 : queryProvider1 net.p1 = none)
    (h2 : queryProviderCoords net.p2 = none)
    (h3 : queryProviderCoords net.p3 = none) :
    (getCoordinatesFromIP bad netb).fst = none ∧
    (getCoordinatesFromIP ip net).fst = none ∧
    (getCoordinatesFromIP bad netb).fst = (getCoordinatesFromIP ip net).fst ∧
    (getCoordinatesFromIPs ips netf).length = ips.length ∧
    (createFlowsFromIPs ps netf).length ≤ ps.length := by
  have hb : (getCoordinatesFromIP bad netb).fst = none := by
    unfold getCoordinatesFromIP
    simp [hbad]
  have hv : (getCoordinatesFromIP ip net).fst = none := by
    unfold getCoordinatesFromIP
    simp [hip, h1, h2, h3]
  refine ⟨hb, hv, hb.trans hv.symm, by simp [getCoordinatesFromIPs], ?_⟩
  induction ps with
  | nil => simp [createFlowsFromIPs]
  | cons pair rest ih =>
    rw [createFlowsFromIPs]
    rcases (getCoordinatesFromIP pair.srcIP (netf pair.srcIP)).fst <;>
      rcases (getCoordinatesFromIP pair.dstIP (netf pair.dstIP)).fst <;>
      simp <;> omega

/-- Witness for C8 at concrete inputs. -/
theorem spec_c8_witness :
    (getCoordinatesFromIP "10.0.0.1.2" sampleP1Ok).fst = none ∧
    (getCoordinatesFromIP "8.8.8.8" sampleAllFail).fst = none ∧
    (getCoordinatesFromIP "10.0.0.1.2" sampleP1Ok).fst =
      (getCoordinatesFromIP "8.8.8.8" sampleAllFail).fst ∧
    (getCoordinatesFromIPs ["8.8.8.8", "bad"]
        (fun _ => sampleAllFail)).length = (["8.8.8.8", "bad"]).length ∧
    (createFlowsFromIPs [{ srcIP := "8.8.8.8", dstIP := "bad" }]
        (fun _ => sampleAllFail)).length ≤
      ([({ srcIP := "8.8.8.8", dstIP := "bad" } : IPPair)]).length :=
  spec_c8 "10.0.0.1.2" "8.8.8.8" sampleP1Ok sampleAllFail
    ["8.8.8.8", "bad"] [{ srcIP := "8.8.8.8", dstIP := "bad" }]
    (fun _ => sampleAllFail)
    (by decide) (by decide) (by decide) (by decide) (by decide)

/-- Splitting on dots passes unchanged over a dot-free group followed by
a literal dot. -/
theorem splitDots_group_append (g rest : List Char)
    (hg : ∀ c ∈ g, c ≠ '.') :
    splitDots (g ++ '.' :: rest) = g :: splitDots rest := by
  induction g with
  | nil => simp [splitDots]
  | cons c cs ih =>
    have hc : c ≠ '.' := hg c (by simp)
    have hrec := ih (fun x hx => hg x (by simp [hx]))
    simp [splitDots, hc, hrec]

/-- Splitting a dot-free list on dots yields the single group. -/
theorem splitDots_no_dot (g : List Char) (hg : ∀ c ∈ g, c ≠ '.') :
    splitDots g = [g] := by
  induction g with
  | nil => rfl
  | cons c cs ih =>
    have hc : c ≠ '.' := hg c (by simp)
    have hrec := ih (fun x hx => hg x (by simp [hx]))
    simp [splitDots, hc, hrec]

/-- A decimal digit is never the dot character. -/
theorem digit_ne_dot (c : Char) (h : c.isDigit = true) : c ≠ '.' := by
  intro hc
  subst hc
  simp [Char.isDigit] at h

/-- C9: every string made of four groups of 1–3 decimal digits separated
by dots — octet values above 255 included — passes format validation,
and `getCoordinatesFromIP` on it proceeds to request provider 1 rather
than returning from validation (its request trace is non-empty and
starts with provider 1). -/
theorem spec_c9 (a b c d : String) (net : Providers)
    (ha : 1 ≤ a.length ∧ a.length ≤ 3 ∧ a.data.all Char.isDigit = true)
    (hb : 1 ≤ b.length ∧ b.length ≤ 3 ∧ b.data.all Char.isDigit = true)
    (hc : 1 ≤ c.length ∧ c.length ≤ 3 ∧ c.data.all Char.isDigit = true)
    (hd : 1 ≤ d.length ∧ d.length ≤ 3 ∧ d.data.all Char.isDigit = true) :
    ipRegexTest (a ++ "." ++ b ++ "." ++ c ++ "." ++ d) = true ∧
    Req.provider1 ∈
      (getCoordinatesFromIP (a ++ "." ++ b ++ "." ++ c ++ "." ++ d)
        net).snd := by
  have nodot : ∀ s : String, s.data.all Char.isDigit = true →
      ∀ x ∈ s.data, x ≠ '.' := by
    intro s hs x hx
    exact digit_ne_dot x (by
      rw [List.all_eq_true] at hs
      exact hs x hx)
  have hdata : (a ++ "." ++ b ++ "." ++ c ++ "." ++ d).data =
      a.data ++ '.' :: (b.data ++ '.' :: (c.data ++ '.' :: d.data)) := by
    simp [String.data_append]
  have hsplit : splitDots (a ++ "." ++ b ++ "." ++ c ++ "." ++ d).data =
      [a.data, b.data, c.data, d.data] := by
    rw [hdata,
      splitDots_group_append _ _ (nodot a ha.2.2),
      splitDots_group_append _ _ (nodot b hb.2.2),
      splitDots_group_append _ _ (nodot c hc.2.2),
      splitDots_no_dot _ (nodot d hd.2.2)]
  have hlen : ∀ s : String, s.data.length = s.length := fun s => rfl
  have htest : ipRegexTest (a ++ "." ++ b ++ "." ++ c ++ "." ++ d) = true := by
    unfold ipRegexTest
    rw [hsplit]
    simp [isOctetGroup, hlen, ha.1, ha.2.1, ha.2.2, hb.1, hb.2.1, hb.2.2,
      hc.1, hc.2.1, hc.2.2, hd.1, hd.2.1, hd.2.2]
  refine ⟨htest, ?_⟩
  unfold getCoordinatesFromIP
  rw [htest]
  rcases queryProvider1 net.p1 with _ | c1
  · rcases queryProviderCoords net.p2 with _ | c2
    · rcases queryProviderCoords net.p3 with _ | c3 <;> simp
    · simp
  · simp

/-- Witness for C9 at the out-of-range quad `999.999.999.999`. -/
theorem spec_c9_witness :
    ipRegexTest ("999" ++ "." ++ "999" ++ "." ++ "999" ++ "." ++ "999") =
      true ∧
    Req.provider1 ∈
      (getCoordinatesFromIP
        ("999" ++ "." ++ "999" ++ "." ++ "999" ++ "." ++ "999")
        sampleAllFail).snd :=
  spec_c9 "999" "999" "999" "999" sampleAllFail
    ⟨by decide, by decide, by decide⟩ ⟨by decide, by decide, by decide⟩
    ⟨by decide, by decide, by decide⟩ ⟨by decide, by decide, by decide⟩

/-- C10: in `createFlowsFromIPs`, the destination lookup always runs,
even when the source lookup already returned `none`: the resolver
invocation trace lists exactly the source IP then the destination IP of
every input pair in order, so each pair causes exactly two resolver
invocations; the flows computed alongside the trace agree with
`createFlowsFromIPs`. -/
theorem spec_c10 (ps : List IPPair) (net : String → Providers) :
    (createFlowsFromIPsTrace ps net).snd =
      (ps.map fun pair => [pair.srcIP, pair.dstIP]).flatten ∧
    (createFlowsFromIPsTrace ps net).snd.length = 2 * ps.length ∧
    (createFlowsFromIPsTrace ps net).fst = createFlowsFromIPs ps net := by
  induction ps with
  | nil => exact ⟨rfl, rfl, rfl⟩
  | cons pair rest ih =>
    refine ⟨?_, ?_, ?_⟩
    · rw [createFlowsFromIPsTrace]
      simp only [List.map_cons, List.flatten_cons]
      rw [ih.1]
      rfl
    · rw [createFlowsFromIPsTrace]
      simp only [ih.2.1, List.length_cons]
      omega
    · rw [createFlowsFromIPsTrace, createFlowsFromIPs]
      rcases (getCoordinatesFromIP pair.srcIP (net pair.srcIP)).fst <;>
        rcases (getCoordinatesFromIP pair.dstIP (net pair.dstIP)).fst <;>
        simp [ih.2.2]

end CoordinatesFromIPs
